import Mathlib

/-!
Verification development for `job_portal_credits.py` (JobCredits repository).

The file shallowly embeds the core logic of the script:

* the record-log store (`load_entries` / `save_entries` over `credits.json`),
* the text-pattern extraction for the Teamio and InWork portals
  (`extract_teamio_credits_from_page`, `extract_inwork_credits_from_page`,
  with the Python `re` patterns compiled into deterministic searchers),
* the collection orchestrator (`collect`) and argument parsing (`parse_args`).

Modelling conventions:

* The on-disk file is a `FileState`: absent, present-but-unparseable, or a
  parsed JSON value.  `json.load` failures are the `malformed` constructor.
* Python `datetime` values are represented by their ISO-8601 rendering
  (`Timestamp.iso`), since the script only ever calls `isoformat()` on them.
* Character classes of Python's Unicode `re` (`\d`, `\s`, `\w`, `str.isdigit`,
  case-insensitive matching) are restricted to ASCII plus the Czech
  diacritic letters that occur in the script's patterns and strings; the
  classes are used consistently on both sides of every theorem.
* The browser / Playwright layer is external: page text, the optional
  narrow-locator fragment, and per-portal fetch outcomes are inputs.
-/

namespace JobCredits

/-- JSON values, as produced by Python's `json` module (no floats are needed
by this program; numbers are integers). -/
inductive Json where
  | null : Json
  | bool (b : Bool) : Json
  | num (n : Int) : Json
  | str (s : String) : Json
  | arr (elems : List Json) : Json
  | obj (fields : List (String × Json)) : Json

/-- State of the `credits.json` file: absent, present but not parseable as
JSON (in which case `json.load` raises and `load_entries` swallows the
exception), or present with parsed content `j`. -/
inductive FileState where
  | absent : FileState
  | malformed : FileState
  | content (j : Json) : FileState

/-- A UTC timestamp, represented by its ISO-8601 rendering, which is all the
script ever uses (`datetime.isoformat`). -/
structure Timestamp where
  iso : String
deriving DecidableEq

/-- The `PortalCredits` dataclass: one reading of a portal's credit balance. -/
structure PortalCredits where
  portal : String
  credits : Int
  timestamp : Timestamp
deriving DecidableEq

/-- `load_entries`: returns the parsed list if the file exists, parses, and
the parsed value is a list; otherwise `[]`.  The Python function never
raises: a missing file returns `[]` and any exception is swallowed. -/
def load_entries : FileState → List Json
  | .absent => []
  | .malformed => []
  | .content (Json.arr elems) => elems
  | .content _ => []

/-- Serialization of one reading as appended by `save_entries`: a JSON object
with exactly the three fields `timestamp`, `portal`, `credits`, in that
order. -/
def serializeRecord (r : PortalCredits) : Json :=
  Json.obj
    [ ("timestamp", Json.str r.timestamp.iso)
    , ("portal", Json.str r.portal)
    , ("credits", Json.num r.credits) ]

/-- `save_entries`: loads the current entries (swallowing corruption),
appends the serializations of the new records in order, and rewrites the
file with the resulting JSON array. -/
def save_entries (new_records : List PortalCredits) (st : FileState) : FileState :=
  FileState.content (Json.arr (load_entries st ++ new_records.map serializeRecord))

/-- Whether the file currently holds a well-formed sequence of records, i.e.
exists, parses as JSON, and the parsed value is a list — exactly the
condition under which `load_entries` returns its content. -/
def isWellFormedLog : FileState → Bool
  | .content (Json.arr _) => true
  | _ => false

/-! ### Text pattern extraction

The Python patterns are

* Teamio `word_pattern = (?:kredit(?:ů|y)?\b|credit(?:s)?\b)` (IGNORECASE),
  `pattern_direct = (\d+)\s*word_pattern`,
  `pattern_reverse = word_pattern\s*(\d+)`;
* InWork `Stav\s+kreditů\s*:\s*(\d+)` and `\b(\d+)\s*kredit` (IGNORECASE),
  tried in that order.

For these patterns, greedy matching with backtracking is deterministic: a
quantifier `\d+`/`\s*`/`\s+` always matches its maximal run (shrinking it
leaves the next atom facing a character of the same class, which can never
start the following literal), and at most one alternative of the unit word
can match at a given position.  Each `match…At` function below decides a
match anchored at a position, and the `search…` functions implement
`re.search`, i.e. the leftmost anchored match wins. -/

/-- Python `\d` / `str.isdigit`, restricted to ASCII digits. -/
def isDigitChar (c : Char) : Bool := '0' ≤ c && c ≤ '9'

/-- Python `\s`: ASCII whitespace (space, tab, newline, vertical tab, form
feed, carriage return). -/
def isSpaceChar (c : Char) : Bool :=
  c = ' ' || c = '\t' || c = '\n' || c = '\r' || c.toNat = 11 || c.toNat = 12

/-- The accented letters occurring in the script's Czech text; used to model
Python's Unicode `\w` on the alphabet this program actually sees. -/
def czechLetters : List Char :=
  ['á', 'č', 'ď', 'é', 'ě', 'í', 'ň', 'ó', 'ř', 'š', 'ť', 'ú', 'ů', 'ý', 'ž',
   'Á', 'Č', 'Ď', 'É', 'Ě', 'Í', 'Ň', 'Ó', 'Ř', 'Š', 'Ť', 'Ú', 'Ů', 'Ý', 'Ž']

/-- Python `\w` (word character), restricted to ASCII alphanumerics, the
underscore, and the Czech diacritic letters. -/
def isWordChar (c : Char) : Bool :=
  c.isAlphanum || c = '_' || czechLetters.contains c

/-- Case folding for IGNORECASE matching: ASCII lowercasing plus the one
non-ASCII letter appearing in the patterns (`Ů` → `ů`). -/
def foldChar (c : Char) : Char :=
  if c = 'Ů' then 'ů' else c.toLower

/-- Case-insensitive literal match at the head of the text: `pat` is a
lowercase pattern; on success returns the text after the matched literal. -/
def startsWithCI : List Char → List Char → Option (List Char)
  | [], cs => some cs
  | _ :: _, [] => none
  | p :: ps, c :: cs => if foldChar c = p then startsWithCI ps cs else none

/-- `\b` between the end of a word and the following text: holds at end of
input or before a non-word character. -/
def boundaryAfterWord : List Char → Bool
  | [] => true
  | c :: _ => !(isWordChar c)

/-- Parse a (maximal) run of ASCII digits, as Python `int` does. -/
def digitsToNat (ds : List Char) : Nat :=
  ds.foldl (fun a c => 10 * a + (c.toNat - 48)) 0

/-- The unit word `(?:kredit(?:ů|y)?\b|credit(?:s)?\b)` anchored at the head
of the text; on success returns the text following the word.  The optional
suffix letter is greedy; if the trailing `\b` fails both with and without
it, no alternative matches (the bare stem is then followed by a word
character). -/
def matchUnitWordAt (cs : List Char) : Option (List Char) :=
  match startsWithCI "kredit".toList cs with
  | some t =>
    match t with
    | [] => some []
    | c :: u =>
      if foldChar c = 'ů' || foldChar c = 'y' then
        if boundaryAfterWord u then some u else none
      else if isWordChar c then none
      else some t
  | none =>
    match startsWithCI "credit".toList cs with
    | some t =>
      match t with
      | [] => some []
      | c :: u =>
        if foldChar c = 's' then
          if boundaryAfterWord u then some u else none
        else if isWordChar c then none
        else some t
    | none => none

/-- Teamio `pattern_direct` `(\d+)\s*word_pattern` anchored at the head:
digits, optional whitespace, then the unit word. -/
def matchDirectAt (cs : List Char) : Option Nat :=
  let ds := cs.takeWhile isDigitChar
  if ds.isEmpty then none
  else
    let t := (cs.dropWhile isDigitChar).dropWhile isSpaceChar
    if (matchUnitWordAt t).isSome then some (digitsToNat ds) else none

/-- Teamio `pattern_reverse` `word_pattern\s*(\d+)` anchored at the head:
the unit word, optional whitespace, then captured digits. -/
def matchReverseAt (cs : List Char) : Option Nat :=
  match matchUnitWordAt cs with
  | some t =>
    let ds := (t.dropWhile isSpaceChar).takeWhile isDigitChar
    if ds.isEmpty then none else some (digitsToNat ds)
  | none => none

/-- `re.search` for `pattern_direct`: leftmost anchored match. -/
def searchDirect : List Char → Option Nat
  | [] => none
  | c :: rest =>
    match matchDirectAt (c :: rest) with
    | some n => some n
    | none => searchDirect rest

/-- `re.search` for `pattern_reverse`: leftmost anchored match. -/
def searchReverse : List Char → Option Nat
  | [] => none
  | c :: rest =>
    match matchReverseAt (c :: rest) with
    | some n => some n
    | none => searchReverse rest

/-- InWork pattern `Stav\s+kreditů\s*:\s*(\d+)` anchored at the head. -/
def matchInwork1At (cs : List Char) : Option Nat :=
  match startsWithCI "stav".toList cs with
  | none => none
  | some t =>
    if (t.takeWhile isSpaceChar).isEmpty then none
    else
      match startsWithCI "kreditů".toList (t.dropWhile isSpaceChar) with
      | none => none
      | some t2 =>
        match t2.dropWhile isSpaceChar with
        | ':' :: t3 =>
          let ds := (t3.dropWhile isSpaceChar).takeWhile isDigitChar
          if ds.isEmpty then none else some (digitsToNat ds)
        | _ => none

/-- `re.search` for the first InWork pattern: leftmost anchored match. -/
def searchInwork1 : List Char → Option Nat
  | [] => none
  | c :: rest =>
    match matchInwork1At (c :: rest) with
    | some n => some n
    | none => searchInwork1 rest

/-- InWork pattern `\b(\d+)\s*kredit` without its leading boundary, anchored
at the head: captured digits, optional whitespace, then the literal stem
(no trailing boundary). -/
def matchInwork2At (cs : List Char) : Option Nat :=
  let ds := cs.takeWhile isDigitChar
  if ds.isEmpty then none
  else
    let t := (cs.dropWhile isDigitChar).dropWhile isSpaceChar
    if (startsWithCI "kredit".toList t).isSome then some (digitsToNat ds) else none

/-- `re.search` for `\b(\d+)\s*kredit`: leftmost anchored match whose start
satisfies `\b`, i.e. the preceding character (tracked in `prev`) is not a
word character. -/
def searchInwork2Aux : Option Char → List Char → Option Nat
  | _, [] => none
  | prev, c :: rest =>
    let startOK := match prev with
      | none => true
      | some p => !(isWordChar p)
    match (if startOK then matchInwork2At (c :: rest) else none) with
    | some n => some n
    | none => searchInwork2Aux (some c) rest

/-- `re.search` for `\b(\d+)\s*kredit` over a whole text. -/
def searchInwork2 (cs : List Char) : Option Nat :=
  searchInwork2Aux none cs

/-- The error raised when no pattern matches (`RuntimeError` in the script):
it carries the portal identifier and a human-readable hint about what the
page is expected to show. -/
structure ExtractionError where
  portal : String
  hint : String
deriving DecidableEq

/-- The Teamio failure message (portal identifier and hint). -/
def teamioError : ExtractionError :=
  { portal := "Teamio"
  , hint := "Nepodařilo se najít počet kreditů na stránce.\nUjisti se, že jsi na dashboardu se \x27Zbývající předplatné\x27 a řádkem jako \x271486  kreditů\x27." }

/-- The InWork failure message (portal identifier and hint). -/
def inworkError : ExtractionError :=
  { portal := "InWork"
  , hint := "Nepodařilo se najít \x27Stav kreditů: X\x27 na stránce.\nUjisti se, že jsi na přehledu, kde je vidět text jako \x27Stav kreditů: 2\x27." }

/-- The whole-page fallback of `extract_teamio_credits_from_page`: the direct
pattern, then the reverse pattern, then failure. -/
def teamioWholePageSearch (body : String) : Except ExtractionError Nat :=
  match searchDirect body.toList with
  | some n => Except.ok n
  | none =>
    match searchReverse body.toList with
    | some n => Except.ok n
    | none => Except.error teamioError

/-- Outcome of the configured narrow locator: `none` when
`TEAMIO_CREDITS_LOCATOR` is not configured, `some (.error ())` when
acquiring or reading the fragment raised, `some (.ok text)` when the
fragment text was obtained. -/
abbrev LocatorOutcome := Option (Except Unit String)

/-- `extract_teamio_credits_from_page`: if a locator is configured and its
fragment is acquired, keep the fragment's digit characters and return them
as an integer when any exist; on acquisition failure, or when the fragment
has no digits, fall through to the whole-page pattern search. -/
def extract_teamio_credits_from_page (loc : LocatorOutcome) (body : String) :
    Except ExtractionError Nat :=
  match loc with
  | some (Except.ok text) =>
    if (text.toList.filter isDigitChar).isEmpty then teamioWholePageSearch body
    else Except.ok (digitsToNat (text.toList.filter isDigitChar))
  | some (Except.error _) => teamioWholePageSearch body
  | none => teamioWholePageSearch body

/-- Whether the narrow-locator path of `extract_teamio_credits_from_page`
produces no value, so that control falls through to the whole-page search:
no locator configured, the fragment acquisition raised, or the fragment
text contains no digit character. -/
def locatorYieldsNone : LocatorOutcome → Bool
  | none => true
  | some (Except.error _) => true
  | some (Except.ok text) => (text.toList.filter isDigitChar).isEmpty

/-- `extract_inwork_credits_from_page`: try the patterns of
`INWORK_CREDITS_PATTERNS` in order, returning the first match's captured
group; if none matches, fail. -/
def extract_inwork_credits_from_page (body : String) : Except ExtractionError Nat :=
  match searchInwork1 body.toList with
  | some n => Except.ok n
  | none =>
    match searchInwork2 body.toList with
    | some n => Except.ok n
    | none => Except.error inworkError

/-! ### Orchestrator and command line -/

/-- Observable outcome of one `collect` run: the readings gathered, the
per-portal failure reports printed, the resulting file state, whether
`save_entries` was invoked, whether the "no new data" outcome was reported,
and the final summary line. -/
structure CollectOutcome where
  results : List PortalCredits
  failures : List String
  fileState : FileState
  wrote : Bool
  noData : Bool
  message : String

/-- The tail of `collect`: if no reading was produced, report "no new data"
and leave the file untouched; otherwise append all readings to the store in
one `save_entries` call and report the count saved. -/
def finishCollect (results : List PortalCredits) (failures : List String)
    (st : FileState) : CollectOutcome :=
  if results.isEmpty then
    { results := results, failures := failures, fileState := st
    , wrote := false, noData := true
    , message := "[AGENT] Nemám žádná nová data k uložení." }
  else
    { results := results, failures := failures
    , fileState := save_entries results st, wrote := true, noData := false
    , message := "[AGENT] Uloženo " ++ toString results.length
        ++ " záznamů do credits.json." }

/-- `collect`: attempt Teamio if requested (catching any exception and
reporting it), then attempt InWork if requested (likewise), then persist the
successes, if any, in a single batch.  The per-portal fetches are external
(browser plus human); their outcomes are inputs: `Except.ok r` when the
fetch returned a reading, `Except.error e` when it raised with message
`e`. -/
def collect (portals : List String)
    (teamioFetch inworkFetch : Except String PortalCredits)
    (st : FileState) : CollectOutcome :=
  let tStep : List PortalCredits × List String :=
    if portals.contains "teamio" then
      match teamioFetch with
      | Except.ok r => ([r], [])
      | Except.error e => ([], ["[Teamio] Chyba: " ++ e])
    else ([], [])
  let iStep : List PortalCredits × List String :=
    if portals.contains "inwork" then
      match inworkFetch with
      | Except.ok r => ([r], [])
      | Except.error e => ([], ["[InWork] Chyba: " ++ e])
    else ([], [])
  finishCollect (tStep.1 ++ iStep.1) (tStep.2 ++ iStep.2) st

/-- Result of `parse_args`: either the list of portals to collect for, or
process termination with the given exit status (`sys.exit`). -/
inductive ArgsResult where
  | portals (ps : List String) : ArgsResult
  | exitWith (code : Nat) : ArgsResult
deriving DecidableEq

/-- Python `str.lower()`, character by character (ASCII lowercasing; the
only comparisons made with it are against the ASCII literals `"teamio"` and
`"inwork"`). -/
def pyLower (s : String) : String :=
  String.mk (s.data.map Char.toLower)

/-- `parse_args` over `sys.argv` (so the element at index 0 is the program
name): no argument selects both portals; `argv[1]`, lowercased, selects a
single portal when it is `teamio` or `inwork`; anything else is a usage
error terminating the process with status 1. -/
def parse_args (argv : List String) : ArgsResult :=
  if argv.length ≤ 1 then ArgsResult.portals ["teamio", "inwork"]
  else
    match argv with
    | _ :: a :: _ =>
      let arg := pyLower a
      if arg = "teamio" then ArgsResult.portals ["teamio"]
      else if arg = "inwork" then ArgsResult.portals ["inwork"]
      else ArgsResult.exitWith 1
    | _ => ArgsResult.portals ["teamio", "inwork"]

/-- A concrete reading used to instantiate the store theorems. -/
def sampleReading : PortalCredits :=
  { portal := "Teamio", credits := 1486
  , timestamp := { iso := "2026-10-12T00:00:00+00:00" } }

/-! ### Theorems -/

/-- Helper: loading right after saving always yields the prior entries
followed by the serialized new records. -/
theorem load_entries_save_entries (R : List PortalCredits) (st : FileState) :
    load_entries (save_entries R st) = load_entries st ++ R.map serializeRecord := rfl

/-- C1: appending readings `R` to a file holding the well-formed sequence `L`
leaves the file holding exactly `L` followed by the serializations of `R`,
in order; each appended record is an object with exactly the three fields
`timestamp` (the reading's ISO-8601 timestamp), `portal` and `credits`; no
prior entry is dropped or reordered, and a subsequent load returns the
concatenation. -/
theorem save_entries_appends (L : List Json) (R : List PortalCredits) :
    save_entries R (FileState.content (Json.arr L))
        = FileState.content (Json.arr (L ++ R.map serializeRecord))
      ∧ load_entries (save_entries R (FileState.content (Json.arr L)))
        = L ++ R.map serializeRecord
      ∧ ∀ r ∈ R, serializeRecord r
        = Json.obj
            [ ("timestamp", Json.str r.timestamp.iso)
            , ("portal", Json.str r.portal)
            , ("credits", Json.num r.credits) ] :=
  ⟨rfl, rfl, fun _ _ => rfl⟩

/-- C1 witness: one concrete append on a one-entry log. -/
theorem save_entries_appends_witness :
    save_entries [sampleReading] (FileState.content (Json.arr [Json.num 1]))
        = FileState.content
            (Json.arr ([Json.num 1] ++ [sampleReading].map serializeRecord))
      ∧ serializeRecord sampleReading
        = Json.obj
            [ ("timestamp", Json.str "2026-10-12T00:00:00+00:00")
            , ("portal", Json.str "Teamio")
            , ("credits", Json.num 1486) ] :=
  ⟨(save_entries_appends [Json.num 1] [sampleReading]).1,
   (save_entries_appends [Json.num 1] [sampleReading]).2.2 sampleReading (by simp)⟩

/-- C2: when the log file is absent or its content is not a well-formed
sequence of records, `load_entries` returns the empty sequence (it is a
total function: no exception escapes), and an append from such a state
treats the prior history as empty, producing a well-formed file holding
exactly the new readings. -/
theorem load_entries_recovers (R : List PortalCredits) (st : FileState)
    (h : isWellFormedLog st = false) :
    load_entries st = []
      ∧ save_entries R st = FileState.content (Json.arr (R.map serializeRecord))
      ∧ isWellFormedLog (save_entries R st) = true := by
  have hload : load_entries st = [] := by
    cases st with
    | absent => rfl
    | malformed => rfl
    | content j =>
      cases j with
      | arr elems => exact absurd h (by simp [isWellFormedLog])
      | null => rfl
      | bool b => rfl
      | num n => rfl
      | str s => rfl
      | obj fields => rfl
  refine ⟨hload, ?_, rfl⟩
  simp [save_entries, hload]

/-- C2 witness: the recovery theorem applied to the absent file and one
concrete reading. -/
theorem load_entries_recovers_witness :
    isWellFormedLog FileState.absent = false
      ∧ (load_entries FileState.absent = []
          ∧ save_entries [sampleReading] FileState.absent
            = FileState.content (Json.arr ([sampleReading].map serializeRecord))
          ∧ isWellFormedLog (save_entries [sampleReading] FileState.absent) = true) :=
  ⟨rfl, load_entries_recovers [sampleReading] FileState.absent rfl⟩

/-- C3: when both portals are requested and exactly one fetch succeeds (in
either order), the orchestrator still attempts the other portal, reports
exactly one failure, and persists exactly one new record — the successful
reading. -/
theorem collect_isolates_portal_failure (r : PortalCredits) (e : String)
    (st : FileState) :
    ((collect ["teamio", "inwork"] (Except.ok r) (Except.error e) st).results = [r]
      ∧ (collect ["teamio", "inwork"] (Except.ok r) (Except.error e) st).failures
        = ["[InWork] Chyba: " ++ e]
      ∧ (collect ["teamio", "inwork"] (Except.ok r) (Except.error e) st).fileState
        = save_entries [r] st
      ∧ load_entries
          (collect ["teamio", "inwork"] (Except.ok r) (Except.error e) st).fileState
        = load_entries st ++ [serializeRecord r])
    ∧ ((collect ["teamio", "inwork"] (Except.error e) (Except.ok r) st).results = [r]
      ∧ (collect ["teamio", "inwork"] (Except.error e) (Except.ok r) st).failures
        = ["[Teamio] Chyba: " ++ e]
      ∧ (collect ["teamio", "inwork"] (Except.error e) (Except.ok r) st).fileState
        = save_entries [r] st
      ∧ load_entries
          (collect ["teamio", "inwork"] (Except.error e) (Except.ok r) st).fileState
        = load_entries st ++ [serializeRecord r]) :=
  ⟨⟨rfl, rfl, rfl, rfl⟩, ⟨rfl, rfl, rfl, rfl⟩⟩

/-- C3 witness: one success plus one failure on the absent file. -/
theorem collect_isolates_portal_failure_witness :
    (collect ["teamio", "inwork"] (Except.ok sampleReading)
        (Except.error "stránka nenalezena") FileState.absent).failures
      = ["[InWork] Chyba: stránka nenalezena"]
    ∧ (collect ["teamio", "inwork"] (Except.ok sampleReading)
        (Except.error "stránka nenalezena") FileState.absent).fileState
      = save_entries [sampleReading] FileState.absent :=
  ⟨(collect_isolates_portal_failure sampleReading "stránka nenalezena"
      FileState.absent).1.2.1,
   (collect_isolates_portal_failure sampleReading "stránka nenalezena"
      FileState.absent).1.2.2.1⟩

/-- Helper for C4: the final step of `collect`, case-split on whether any
reading was produced. -/
theorem finishCollect_props (rs : List PortalCredits) (fs : List String)
    (st : FileState) :
    ((finishCollect rs fs st).results = [] →
        (finishCollect rs fs st).fileState = st
        ∧ (finishCollect rs fs st).wrote = false
        ∧ (finishCollect rs fs st).noData = true
        ∧ (finishCollect rs fs st).message = "[AGENT] Nemám žádná nová data k uložení.")
    ∧ ((finishCollect rs fs st).results ≠ [] →
        (finishCollect rs fs st).fileState
          = save_entries (finishCollect rs fs st).results st
        ∧ (finishCollect rs fs st).wrote = true
        ∧ (finishCollect rs fs st).noData = false) := by
  cases rs with
  | nil => exact ⟨fun _ => ⟨rfl, rfl, rfl, rfl⟩, fun h => absurd rfl h⟩
  | cons r rest =>
    refine ⟨fun h => ?_, fun _ => ⟨rfl, rfl, rfl⟩⟩
    exact absurd h (by simp [finishCollect])

/-- C4: in every run of the orchestrator, if at least one reading was
produced, all successes are appended to the store in one single
`save_entries` batch call; if zero readings were produced, no write occurs,
the file state is unchanged, and the outcome is reported with the distinct
"no new data" message. -/
theorem collect_write_discipline (portals : List String)
    (tRes iRes : Except String PortalCredits) (st : FileState) :
    ((collect portals tRes iRes st).results = [] →
        (collect portals tRes iRes st).fileState = st
        ∧ (collect portals tRes iRes st).wrote = false
        ∧ (collect portals tRes iRes st).noData = true
        ∧ (collect portals tRes iRes st).message
          = "[AGENT] Nemám žádná nová data k uložení.")
    ∧ ((collect portals tRes iRes st).results ≠ [] →
        (collect portals tRes iRes st).fileState
          = save_entries (collect portals tRes iRes st).results st
        ∧ (collect portals tRes iRes st).wrote = true
        ∧ (collect portals tRes iRes st).noData = false) :=
  finishCollect_props _ _ st

/-- C4 witness: a run with zero successes leaves the file untouched; a run
with one success performs the batch write. -/
theorem collect_write_discipline_witness :
    ((collect ["teamio"] (Except.error "chyba") (Except.ok sampleReading)
        FileState.absent).results = []
      ∧ (collect ["teamio"] (Except.error "chyba") (Except.ok sampleReading)
          FileState.absent).fileState = FileState.absent
      ∧ (collect ["teamio"] (Except.error "chyba") (Except.ok sampleReading)
          FileState.absent).wrote = false
      ∧ (collect ["teamio"] (Except.error "chyba") (Except.ok sampleReading)
          FileState.absent).noData = true)
    ∧ ((collect ["teamio", "inwork"] (Except.ok sampleReading) (Except.error "x")
          FileState.malformed).wrote = true
      ∧ (collect ["teamio", "inwork"] (Except.ok sampleReading) (Except.error "x")
          FileState.malformed).fileState
        = save_entries (collect ["teamio", "inwork"] (Except.ok sampleReading)
            (Except.error "x") FileState.malformed).results FileState.malformed) :=
  ⟨⟨rfl,
    ((collect_write_discipline ["teamio"] (Except.error "chyba")
        (Except.ok sampleReading) FileState.absent).1 rfl).1,
    ((collect_write_discipline ["teamio"] (Except.error "chyba")
        (Except.ok sampleReading) FileState.absent).1 rfl).2.1,
    ((collect_write_discipline ["teamio"] (Except.error "chyba")
        (Except.ok sampleReading) FileState.absent).1 rfl).2.2.1⟩,
   ⟨((collect_write_discipline ["teamio", "inwork"] (Except.ok sampleReading)
        (Except.error "x") FileState.malformed).2 (by decide)).2.1,
    ((collect_write_discipline ["teamio", "inwork"] (Except.ok sampleReading)
        (Except.error "x") FileState.malformed).2 (by decide)).1⟩⟩

/-- C5 counterexample: with a configured Teamio locator whose fragment text
is `"a1"` and an empty page body, no pattern of the pattern list matches
any of the texts, yet extraction returns the value 1 instead of failing. -/
theorem extraction_error_counterexample :
    searchDirect "a1".toList = none
    ∧ searchReverse "a1".toList = none
    ∧ searchDirect "".toList = none
    ∧ searchReverse "".toList = none
    ∧ extract_teamio_credits_from_page (some (Except.ok "a1")) "" = Except.ok 1 :=
  ⟨rfl, rfl, rfl, rfl, rfl⟩

/-- C5 (amended): whenever the Teamio narrow-locator path yields no value
(not configured, acquisition failed, or digit-free fragment) and no pattern
matches the page text, Teamio extraction fails with the error carrying the
portal identifier and the hint; InWork extraction does so unconditionally
when none of its patterns matches; neither returns a value. -/
theorem extraction_fails_without_match :
    (∀ (loc : LocatorOutcome) (body : String),
        locatorYieldsNone loc = true →
        searchDirect body.toList = none →
        searchReverse body.toList = none →
        extract_teamio_credits_from_page loc body = Except.error teamioError)
    ∧ (∀ body : String,
        searchInwork1 body.toList = none →
        searchInwork2 body.toList = none →
        extract_inwork_credits_from_page body = Except.error inworkError)
    ∧ teamioError.portal = "Teamio" ∧ inworkError.portal = "InWork" := by
  refine ⟨?_, ?_, rfl, rfl⟩
  · intro loc body hloc hd hr
    have hbody : teamioWholePageSearch body = Except.error teamioError := by
      unfold teamioWholePageSearch
      rw [hd, hr]
    match loc with
    | none => exact hbody
    | some (Except.error u) => exact hbody
    | some (Except.ok text) =>
      have hdig : (text.toList.filter isDigitChar).isEmpty = true := hloc
      show (if (text.toList.filter isDigitChar).isEmpty then teamioWholePageSearch body
            else Except.ok (digitsToNat (text.toList.filter isDigitChar)))
          = Except.error teamioError
      rw [hdig]
      exact hbody
  · intro body h1 h2
    unfold extract_inwork_credits_from_page
    rw [h1, h2]

/-- C5 (amended) witness: a failed locator acquisition with a pattern-free
body, and a pattern-free InWork body. -/
theorem extraction_fails_without_match_witness :
    locatorYieldsNone (some (Except.error ())) = true
    ∧ searchDirect "žádná čísla zde".toList = none
    ∧ searchReverse "žádná čísla zde".toList = none
    ∧ extract_teamio_credits_from_page (some (Except.error ())) "žádná čísla zde"
      = Except.error teamioError
    ∧ searchInwork1 "nic tu není".toList = none
    ∧ searchInwork2 "nic tu není".toList = none
    ∧ extract_inwork_credits_from_page "nic tu není" = Except.error inworkError :=
  ⟨rfl, rfl, rfl,
   extraction_fails_without_match.1 (some (Except.error ())) "žádná čísla zde"
     rfl rfl rfl,
   rfl, rfl,
   extraction_fails_without_match.2.1 "nic tu není" rfl rfl⟩

/-- C7 counterexample: the page text `"Stav kreditů: 27"` contains the
substring `"Stav kreditů: 2"`, yet InWork extraction returns 27, not 2: the
claim's universal quantification over texts merely containing the substring
fails. -/
theorem inwork_substring_counterexample :
    ("Stav kreditů: 27" : String) = "Stav kreditů: 2" ++ "7"
    ∧ extract_inwork_credits_from_page "Stav kreditů: 27" = Except.ok 27
    ∧ (27 : Nat) ≠ 2 :=
  ⟨rfl, rfl, by decide⟩

/-- C7 (amended): the portal-specific literal pattern `Stav kreditů: N` is
tried before the generic number-before-unit pattern, so whenever it matches
its captured value is the one returned; in particular, for the page text
`"Stav kreditů: 2"` itself, InWork extraction returns 2. -/
theorem inwork_literal_priority :
    (∀ (body : String) (n : Nat),
        searchInwork1 body.toList = some n →
        extract_inwork_credits_from_page body = Except.ok n)
    ∧ extract_inwork_credits_from_page "Stav kreditů: 2" = Except.ok 2 := by
  refine ⟨?_, rfl⟩
  intro body n h
  unfold extract_inwork_credits_from_page
  rw [h]

/-- C7 (amended) witness: a text where both patterns match (the literal one
captures 2, the generic one captures 5); the literal pattern wins. -/
theorem inwork_literal_priority_witness :
    searchInwork1 "Stav kreditů: 2 a 5 kredit".toList = some 2
    ∧ searchInwork2 "Stav kreditů: 2 a 5 kredit".toList = some 5
    ∧ extract_inwork_credits_from_page "Stav kreditů: 2 a 5 kredit" = Except.ok 2 :=
  ⟨rfl, rfl, inwork_literal_priority.1 "Stav kreditů: 2 a 5 kredit" 2 rfl⟩

/-- C8: when a Teamio locator is configured and its fragment is acquired
with at least one digit, the fragment decides the result before any
whole-page pattern is consulted (the result does not depend on the page
body); and on any acquisition failure, extraction falls through to the
whole-page search instead of failing. -/
theorem teamio_locator_priority :
    (∀ (fragment body : String),
        (fragment.toList.filter isDigitChar).isEmpty = false →
        extract_teamio_credits_from_page (some (Except.ok fragment)) body
          = Except.ok (digitsToNat (fragment.toList.filter isDigitChar)))
    ∧ (∀ body : String,
        extract_teamio_credits_from_page (some (Except.error ())) body
          = extract_teamio_credits_from_page none body) := by
  refine ⟨?_, fun _ => rfl⟩
  intro fragment body h
  show (if (fragment.toList.filter isDigitChar).isEmpty then teamioWholePageSearch body
        else Except.ok (digitsToNat (fragment.toList.filter isDigitChar)))
      = Except.ok (digitsToNat (fragment.toList.filter isDigitChar))
  rw [h]
  rfl

/-- C8 witness: the fragment `"x1486y"` decides the result 1486 even though
the whole-page search over the body would have produced 7. -/
theorem teamio_locator_priority_witness :
    ("x1486y".toList.filter isDigitChar).isEmpty = false
    ∧ extract_teamio_credits_from_page (some (Except.ok "x1486y")) "7 kredity"
      = Except.ok (digitsToNat ("x1486y".toList.filter isDigitChar))
    ∧ digitsToNat ("x1486y".toList.filter isDigitChar) = 1486
    ∧ extract_teamio_credits_from_page none "7 kredity" = Except.ok 7
    ∧ extract_teamio_credits_from_page (some (Except.error ())) "7 kredity"
      = extract_teamio_credits_from_page none "7 kredity" :=
  ⟨rfl,
   teamio_locator_priority.1 "x1486y" "7 kredity" rfl,
   rfl, rfl,
   teamio_locator_priority.2 "7 kredity"⟩

/-- C9 counterexample: the argument `"TEAMIO"` differs from both accepted
literals, yet `parse_args` selects the Teamio portal instead of exiting
with a usage error (arguments are lowercased before comparison). -/
theorem parse_args_case_counterexample :
    ("TEAMIO" : String) ≠ "teamio"
    ∧ ("TEAMIO" : String) ≠ "inwork"
    ∧ parse_args ["job_portal_credits.py", "TEAMIO"] = ArgsResult.portals ["teamio"] :=
  ⟨by decide, by decide, by decide⟩

/-- C9 (amended): with zero arguments `parse_args` selects both portals,
teamio first; an argument whose lowercase form is `teamio` or `inwork`
selects exactly that portal; and every argument whose lowercase form is
neither is a usage error terminating the process with the non-zero status
1, before any collection is attempted. -/
theorem parse_args_selects :
    (∀ prog : String, parse_args [prog] = ArgsResult.portals ["teamio", "inwork"])
    ∧ (∀ (prog a : String) (rest : List String),
        pyLower a = "teamio" →
        parse_args (prog :: a :: rest) = ArgsResult.portals ["teamio"])
    ∧ (∀ (prog a : String) (rest : List String),
        pyLower a = "inwork" →
        parse_args (prog :: a :: rest) = ArgsResult.portals ["inwork"])
    ∧ (∀ (prog a : String) (rest : List String),
        pyLower a ≠ "teamio" → pyLower a ≠ "inwork" →
        parse_args (prog :: a :: rest) = ArgsResult.exitWith 1 ∧ (1 : Nat) ≠ 0) := by
  refine ⟨fun prog => rfl, ?_, ?_, ?_⟩
  · intro prog a rest h
    simp [parse_args, h]
  · intro prog a rest h
    by_cases ht : pyLower a = "teamio"
    · rw [ht] at h
      exact absurd h (by decide)
    · simp [parse_args, h, ht]
  · intro prog a rest h1 h2
    refine ⟨?_, by decide⟩
    simp [parse_args, h1, h2]

/-- C9 (amended) witness: a mixed-case InWork selection and a rejected
argument. -/
theorem parse_args_selects_witness :
    pyLower "Inwork" = "inwork"
    ∧ parse_args ["prog", "Inwork"] = ArgsResult.portals ["inwork"]
    ∧ pyLower "both" ≠ "teamio"
    ∧ pyLower "both" ≠ "inwork"
    ∧ parse_args ["prog", "both"] = ArgsResult.exitWith 1 ∧ (1 : Nat) ≠ 0 :=
  ⟨by decide,
   parse_args_selects.2.2.1 "prog" "Inwork" [] (by decide),
   by decide, by decide,
   (parse_args_selects.2.2.2 "prog" "both" [] (by decide) (by decide)).1,
   (parse_args_selects.2.2.2 "prog" "both" [] (by decide) (by decide)).2⟩

/-- C10: when the configured Teamio locator's fragment is acquired
successfully but contains no digit character, extraction neither fails nor
returns a value from the locator path: it behaves exactly as if no locator
had been configured. -/
theorem teamio_locator_no_digits_fallthrough (fragment body : String)
    (h : (fragment.toList.filter isDigitChar).isEmpty = true) :
    extract_teamio_credits_from_page (some (Except.ok fragment)) body
      = extract_teamio_credits_from_page none body := by
  show (if (fragment.toList.filter isDigitChar).isEmpty then teamioWholePageSearch body
        else Except.ok (digitsToNat (fragment.toList.filter isDigitChar)))
      = extract_teamio_credits_from_page none body
  rw [h]
  rfl

/-- C10 witness: the digit-free fragment `"abc"` falls through to the
whole-page search, which finds 5. -/
theorem teamio_locator_no_digits_fallthrough_witness :
    ("abc".toList.filter isDigitChar).isEmpty = true
    ∧ extract_teamio_credits_from_page (some (Except.ok "abc")) "5 kredity"
      = extract_teamio_credits_from_page none "5 kredity"
    ∧ extract_teamio_credits_from_page none "5 kredity" = Except.ok 5 :=
  ⟨rfl,
   teamio_locator_no_digits_fallthrough "abc" "5 kredity" rfl,
   rfl⟩

end JobCredits
